import Mathlib

/-!
Verification of the AutoscoperMockServer wire-protocol dispatcher
(`Socket.cpp`) and its mock command surface
(`AutoscoperMockMainWindow.cpp`).

Bytes are modelled as `Nat` (wire bytes are `< 256`); a C++ `double` is
modelled by its 8 little-endian IEEE-754 bytes, so "bit-for-bit" equality
of doubles is equality of byte lists.  A handler result of `none` marks an
execution that reads past the end of a buffer (undefined behaviour in the
C++ source); `some` carries the new main-window state, the reply bytes
written on the connection, and the trace of command-surface calls made.
-/

/-- Bytes `data[off], …, data[off+n-1]`; `none` models a read past the end
of the received buffer (undefined behaviour in the C++). -/
def readBytes (data : List Nat) (off n : Nat) : Option (List Nat) :=
  if off + n ≤ data.length then some ((data.drop off).take n) else none

/-- All bytes from `off` to the end, as in `std::string(&data[off], length - off)`;
`none` when `off > length` (the C++ size underflows and reads out of bounds). -/
def readTail (data : List Nat) (off : Nat) : Option (List Nat) :=
  if off ≤ data.length then some (data.drop off) else none

/-- Little-endian value of a byte list. -/
def leNat (bs : List Nat) : Nat := bs.foldr (fun b acc => b + 256 * acc) 0

/-- Signed 32-bit integer decoded from 4 little-endian bytes (`qint32`). -/
def i32 (bs : List Nat) : Int :=
  let u := leNat bs
  if u < 2 ^ 31 then (u : Int) else (u : Int) - 2 ^ 32

/-- Conversion of a signed value to `unsigned int` (mod 2^32). -/
def toU32 (i : Int) : Nat := (i % 2 ^ 32).toNat

/-- 4 little-endian bytes of an `unsigned int` value. -/
def le32 (n : Nat) : List Nat :=
  [n % 256, n / 256 % 256, n / 2 ^ 16 % 256, n / 2 ^ 24 % 256]

/-- Little-endian IEEE-754 bytes of the double constant `0.1`. -/
def d0_1 : List Nat := [154, 153, 153, 153, 153, 153, 185, 63]

/-- Little-endian IEEE-754 bytes of the double constant `1.2`. -/
def d1_2 : List Nat := [51, 51, 51, 51, 51, 51, 243, 63]

/-- Little-endian IEEE-754 bytes of the double constant `2.3`. -/
def d2_3 : List Nat := [102, 102, 102, 102, 102, 102, 2, 64]

/-- Little-endian IEEE-754 bytes of the double constant `3.4`. -/
def d3_4 : List Nat := [51, 51, 51, 51, 51, 51, 11, 64]

/-- Little-endian IEEE-754 bytes of the double constant `4.5`. -/
def d4_5 : List Nat := [0, 0, 0, 0, 0, 0, 18, 64]

/-- Little-endian IEEE-754 bytes of the double constant `6.7`. -/
def d6_7 : List Nat := [205, 204, 204, 204, 204, 204, 26, 64]

/-- Little-endian IEEE-754 bytes of the double constant `0.5`. -/
def d0_5 : List Nat := [0, 0, 0, 0, 0, 0, 224, 63]

/-- State of `AutoscoperMockMainWindow`: the private members `Frame` and
`Pose`.  `Pose` is the byte buffer of the stored `std::vector<double>`
(8 little-endian bytes per double). -/
structure MainState where
  Frame : Int
  Pose : List Nat
deriving DecidableEq, Repr

/-- `AutoscoperMockMainWindow::AutoscoperMockMainWindow()`: `Frame` is
initialised to `-1`, `Pose` to the six doubles `0.1, 1.2, 2.3, 3.4, 4.5, 6.7`. -/
def mockInitialState : MainState :=
  ⟨-1, d0_1 ++ d1_2 ++ d2_3 ++ d3_4 ++ d4_5 ++ d6_7⟩

namespace AutoscoperMockMainWindow

/-- `AutoscoperMockMainWindow::setFrame`: stores the frame; nothing else. -/
def setFrame (s : MainState) (frame : Int) : MainState := { s with Frame := frame }

/-- `AutoscoperMockMainWindow::getPose`: returns `this->Pose`, ignoring
`volume` and `frame`. -/
def getPose (s : MainState) (volume frame : Nat) : List Nat := s.Pose

/-- `AutoscoperMockMainWindow::setPose`: stores `pose` into `this->Pose`,
ignoring `volume` and `frame`. -/
def setPose (s : MainState) (pose : List Nat) (volume frame : Nat) : MainState :=
  { s with Pose := pose }

/-- `AutoscoperMockMainWindow::getNCC`: always returns the one-element
vector `{0.5}` (each element given by its 8 bytes). -/
def getNCC (volumeID : Nat) (xyzpr : List Nat) : List (List Nat) := [d0_5]

/-- `AutoscoperMockMainWindow::getImageData`: generates the four-quadrant
image.  The outer loop runs over `w_idx < width`, the inner over
`h_idx < height`; a pixel is 255 when (`w_idx > width/2` and
`h_idx > height/2`) or (`w_idx ≤ width/2` and `h_idx ≤ height/2`), else 0.
`width` and `height` are reference parameters that the mock never writes. -/
def getImageData (volumeID camera : Nat) (xyzpr : List Nat) (width height : Nat) :
    List Nat :=
  ((List.range width).map (fun w_idx =>
    (List.range height).map (fun h_idx =>
      let width_index_right := width / 2 < w_idx
      let height_index_bottom := height / 2 < h_idx
      if (width_index_right && height_index_bottom)
          || (!width_index_right && !height_index_bottom) then 255 else 0))).flatten

end AutoscoperMockMainWindow

/-- One command-surface invocation, with the arguments the dispatcher
passed (string and double arguments as raw bytes). -/
inductive Call where
  | openTrial (filename : List Nat)
  | load_tracking_results (filename : List Nat)
      (save_as_matrix save_as_rows save_with_commas convert_to_cm convert_to_rad interpolate : Bool)
      (volume : Int)
  | save_tracking_results (filename : List Nat)
      (save_as_matrix save_as_rows save_with_commas convert_to_cm convert_to_rad interpolate : Bool)
      (volume : Int)
  | loadFilterSettings (camera : Int) (filename : List Nat)
  | setFrame (frame : Int)
  | getPose (volume frame : Nat)
  | setPose (pose : List Nat) (volume frame : Nat)
  | setBackground (threshold : List Nat)
  | getNCC (volumeID : Nat) (xyzpr : List Nat)
  | saveFullDRR
  | getImageData (volumeID camera : Nat) (xyzpr : List Nat) (width height : Nat)
  | optimizeFrame (volumeID frame dframe repeats opt_method : Int) (max_iter : Nat)
      (min_limit max_limit : List Nat) (cf_model : Int) (stall_iter : Nat)
deriving DecidableEq, Repr

/-- Outcome of one `Socket::handleMessage` call: the main-window state
afterwards, the reply bytes written to the connection, and the
command-surface calls made (in order). -/
structure HandleResult where
  state : MainState
  reply : List Nat
  calls : List Call
deriving DecidableEq, Repr

open AutoscoperMockMainWindow in
/-- `Socket::handleMessage(connection, data, length)`.  `uninit` carries the
indeterminate values of the uninitialized locals `width`, `height` of the
opcode-10 case (they are stack garbage in the C++; the mock's
`getImageData` reads them and never writes them).  `none` marks a read
past the end of a buffer (undefined behaviour in the C++ source). -/
def handleMessage (st : MainState) (uninit : Nat × Nat) (data : List Nat) :
    Option HandleResult :=
  match data with
  | [] => none
  | message_type :: _ =>
    match message_type with
    | 1 => do
      -- load trial
      let filename ← readTail data 1
      pure ⟨st, [1], [.openTrial filename]⟩
    | 2 => do
      -- load tracking data
      let volume := i32 (← readBytes data 1 4)
      let filename ← readTail data 5
      pure ⟨st, [2],
        [.load_tracking_results filename true true true false false false volume]⟩
    | 3 => do
      -- save tracking data
      let volume := i32 (← readBytes data 1 4)
      let filename ← readTail data 5
      pure ⟨st, [3],
        [.save_tracking_results filename true true true false false false volume]⟩
    | 4 => do
      -- load filter settings
      let camera := i32 (← readBytes data 1 4)
      let filename ← readTail data 5
      pure ⟨st, [4], [.loadFilterSettings camera filename]⟩
    | 5 => do
      -- set current frame
      let frame := i32 (← readBytes data 1 4)
      pure ⟨setFrame st frame, [5], [.setFrame frame]⟩
    | 6 => do
      -- get Pose
      let volume := toU32 (i32 (← readBytes data 1 4))
      let frame := toU32 (i32 (← readBytes data 5 4))
      let pose := getPose st volume frame
      -- 48 bytes are read from `&pose[0]` (out of bounds if the buffer is shorter)
      if 48 ≤ pose.length then
        pure ⟨st, 6 :: pose.take 48, [.getPose volume frame]⟩
      else none
    | 7 => do
      -- set Pose
      let volume := toU32 (i32 (← readBytes data 1 4))
      let frame := toU32 (i32 (← readBytes data 5 4))
      let pose ← readBytes data 9 48
      pure ⟨setPose st pose volume frame, [7], [.setPose pose volume frame]⟩
    | 8 => do
      -- get NCC
      let volume := toU32 (i32 (← readBytes data 1 4))
      let pose_data ← readBytes data 5 48
      let ncc := getNCC volume pose_data
      -- `&ncc[0]` on an empty vector is out of bounds
      if ncc.isEmpty then none
      else pure ⟨st, 8 :: (ncc.length % 256) :: ncc.flatten, [.getNCC volume pose_data]⟩
    | 9 => do
      -- set Background
      let threshold ← readBytes data 1 8
      pure ⟨st, [9], [.setBackground threshold]⟩
    | 10 => do
      -- get the image - cropped
      let volume := toU32 (i32 (← readBytes data 1 4))
      let camera := toU32 (i32 (← readBytes data 5 4))
      let pose_data ← readBytes data 9 48
      let width := uninit.1 % 2 ^ 32
      let height := uninit.2 % 2 ^ 32
      let img_Data := getImageData volume camera pose_data width height
      -- `&img_Data[0]` on an empty vector is out of bounds
      if img_Data.isEmpty then none
      else pure ⟨st, 10 :: (le32 width ++ le32 height ++ img_Data),
        [.getImageData volume camera pose_data width height]⟩
    | 11 => do
      -- optimize from matlab
      let volumeID := i32 (← readBytes data 1 4)
      let frame := i32 (← readBytes data 5 4)
      let repeats := i32 (← readBytes data 9 4)
      let max_iter := toU32 (i32 (← readBytes data 13 4))
      let min_limit ← readBytes data 17 8
      let max_limit ← readBytes data 25 8
      let stall_iter := toU32 (i32 (← readBytes data 33 4))
      pure ⟨st, [11],
        [.optimizeFrame volumeID frame 1 repeats 0 max_iter min_limit max_limit 0 stall_iter]⟩
    | 12 =>
      -- save full drr image
      pure ⟨st, [12], [.saveFullDRR]⟩
    | _ =>
      -- "Cannot handle message"
      pure ⟨st, [0], []⟩

open AutoscoperMockMainWindow in
/-- Spec-side dispatcher, written from the spec's opcode table (§4.2): it
receives a decoded Message — `opcode = firstByte`, `payload =
remainingBytes` — and reads every field at its payload-relative offset.
Used only to state the framing refinement of `Socket::reading` /
`Socket::handleMessage`. -/
def specDispatch (st : MainState) (uninit : Nat × Nat) (opcode : Nat)
    (payload : List Nat) : Option HandleResult :=
  match opcode with
  | 1 => do
    let filename ← readTail payload 0
    pure ⟨st, [1], [.openTrial filename]⟩
  | 2 => do
    let volume := i32 (← readBytes payload 0 4)
    let filename ← readTail payload 4
    pure ⟨st, [2],
      [.load_tracking_results filename true true true false false false volume]⟩
  | 3 => do
    let volume := i32 (← readBytes payload 0 4)
    let filename ← readTail payload 4
    pure ⟨st, [3],
      [.save_tracking_results filename true true true false false false volume]⟩
  | 4 => do
    let camera := i32 (← readBytes payload 0 4)
    let filename ← readTail payload 4
    pure ⟨st, [4], [.loadFilterSettings camera filename]⟩
  | 5 => do
    let frame := i32 (← readBytes payload 0 4)
    pure ⟨setFrame st frame, [5], [.setFrame frame]⟩
  | 6 => do
    let volume := toU32 (i32 (← readBytes payload 0 4))
    let frame := toU32 (i32 (← readBytes payload 4 4))
    let pose := getPose st volume frame
    if 48 ≤ pose.length then
      pure ⟨st, 6 :: pose.take 48, [.getPose volume frame]⟩
    else none
  | 7 => do
    let volume := toU32 (i32 (← readBytes payload 0 4))
    let frame := toU32 (i32 (← readBytes payload 4 4))
    let pose ← readBytes payload 8 48
    pure ⟨setPose st pose volume frame, [7], [.setPose pose volume frame]⟩
  | 8 => do
    let volume := toU32 (i32 (← readBytes payload 0 4))
    let pose_data ← readBytes payload 4 48
    let ncc := getNCC volume pose_data
    if ncc.isEmpty then none
    else pure ⟨st, 8 :: (ncc.length % 256) :: ncc.flatten, [.getNCC volume pose_data]⟩
  | 9 => do
    let threshold ← readBytes payload 0 8
    pure ⟨st, [9], [.setBackground threshold]⟩
  | 10 => do
    let volume := toU32 (i32 (← readBytes payload 0 4))
    let camera := toU32 (i32 (← readBytes payload 4 4))
    let pose_data ← readBytes payload 8 48
    let width := uninit.1 % 2 ^ 32
    let height := uninit.2 % 2 ^ 32
    let img_Data := getImageData volume camera pose_data width height
    if img_Data.isEmpty then none
    else pure ⟨st, 10 :: (le32 width ++ le32 height ++ img_Data),
      [.getImageData volume camera pose_data width height]⟩
  | 11 => do
    let volumeID := i32 (← readBytes payload 0 4)
    let frame := i32 (← readBytes payload 4 4)
    let repeats := i32 (← readBytes payload 8 4)
    let max_iter := toU32 (i32 (← readBytes payload 12 4))
    let min_limit ← readBytes payload 16 8
    let max_limit ← readBytes payload 24 8
    let stall_iter := toU32 (i32 (← readBytes payload 32 4))
    pure ⟨st, [11],
      [.optimizeFrame volumeID frame 1 repeats 0 max_iter min_limit max_limit 0 stall_iter]⟩
  | 12 =>
    pure ⟨st, [12], [.saveFullDRR]⟩
  | _ =>
    pure ⟨st, [0], []⟩

/-- `Socket::reading()`: the readyRead slot reads all of `bytesAvailable()`
into a fresh buffer and hands that single buffer to `handleMessage` once.
First component: the handling outcome; second component: the bytes that
remain buffered for later read events (the slot consumes everything, so
nothing is carried over). -/
def reading (st : MainState) (uninit : Nat × Nat) (pending : List Nat) :
    Option HandleResult × List Nat :=
  (handleMessage st uninit pending, [])

/-- Connection-lifecycle events of the `Socket` object: `newConnection`
(the server signal handled by `Socket::createNewConnection`, which accepts
the pending connection `c`), `disconnected` (handled by
`Socket::deleteConnection`, which erases `c` from `clientConnections`),
and `readyRead c data` (handled by `Socket::reading`, which reads `data`
and writes the reply back on `c`). -/
inductive SockEv where
  | newConnection (c : Nat)
  | disconnected (c : Nat)
  | readyRead (c : Nat) (data : List Nat)
deriving DecidableEq, Repr

/-- Dispatcher connection state: `clientConnections` is the live set
(`std::vector<QTcpSocket*> clientConnections`); `used` is the ghost set of
every identity ever accepted (a fresh `QTcpSocket` object per accept — no
reconnection reuses a Connection object). -/
structure SockState where
  used : List Nat
  clientConnections : List Nat
deriving DecidableEq, Repr

/-- Effect of one event on the connection state: `createNewConnection`
does `clientConnections.push_back`, `deleteConnection` does
erase/remove of every occurrence, and `reading` leaves the set untouched. -/
def socketStep (s : SockState) : SockEv → SockState
  | .newConnection c => ⟨s.used ++ [c], s.clientConnections ++ [c]⟩
  | .disconnected c => ⟨s.used, s.clientConnections.filter (fun x => x != c)⟩
  | .readyRead _ _ => s

/-- Transport contract for an event: an accepted connection is a fresh
object, and the `disconnected` / `readyRead` signals only fire for a
currently live connection. -/
def okEv (s : SockState) : SockEv → Bool
  | .newConnection c => ! s.used.contains c
  | .disconnected c => s.clientConnections.contains c
  | .readyRead c _ => s.clientConnections.contains c

/-- A sequence of events each of which satisfies the transport contract in
the state reached so far. -/
def validRun : SockState → List SockEv → Bool
  | _, [] => true
  | s, e :: es => okEv s e && validRun (socketStep s e) es

/-- State after a sequence of events. -/
def runState (s : SockState) (es : List SockEv) : SockState :=
  es.foldl socketStep s

/-- The connections a reply is written to during a sequence of events
(`Socket::reading` writes its reply to the sender connection). -/
def replyTargets (es : List SockEv) : List Nat :=
  es.filterMap fun e => match e with
    | .readyRead c _ => some c
    | _ => none

/-- Minimum payload length below which an opcode's fixed fields would be
read out of bounds (`length` in the C++ counts the opcode byte too; this
counts payload bytes only). -/
def ackMinLen : Nat → Nat
  | 2 | 3 | 4 | 5 => 4
  | 7 => 56
  | 9 => 8
  | 11 => 36
  | _ => 0

open AutoscoperMockMainWindow in
/-- Effect of each command-surface method on the mock main window's private
state (`Frame`, `Pose`): `setFrame` writes `Frame`, `setPose` writes
`Pose`, and every other method only logs and leaves the state unchanged. -/
def applyCall (s : MainState) : Call → MainState
  | .openTrial _ => s
  | .load_tracking_results _ _ _ _ _ _ _ _ => s
  | .save_tracking_results _ _ _ _ _ _ _ _ => s
  | .loadFilterSettings _ _ => s
  | .setFrame frame => setFrame s frame
  | .getPose _ _ => s
  | .setPose pose volume frame => setPose s pose volume frame
  | .setBackground _ => s
  | .getNCC _ _ => s
  | .saveFullDRR => s
  | .getImageData _ _ _ _ _ => s
  | .optimizeFrame _ _ _ _ _ _ _ _ _ _ => s

theorem readBytes_cons (b : Nat) (data : List Nat) (off n : Nat) :
    readBytes (b :: data) (off + 1) n = readBytes data off n := by
  unfold readBytes
  have h : off + 1 + n ≤ (b :: data).length ↔ off + n ≤ data.length := by
    simp only [List.length_cons]; omega
  rw [List.drop_succ_cons]
  exact if_congr h rfl rfl

theorem readTail_cons (b : Nat) (data : List Nat) (off : Nat) :
    readTail (b :: data) (off + 1) = readTail data off := by
  unfold readTail
  have h : off + 1 ≤ (b :: data).length ↔ off ≤ data.length := by
    simp only [List.length_cons]; omega
  rw [List.drop_succ_cons]
  exact if_congr h rfl rfl

/-- C2: Each transport readiness event is dispatched as exactly one
complete message: `Socket::reading` hands all currently available bytes to
`handleMessage` in a single call, whose behaviour coincides with the
spec-side dispatch of the Message with `opcode` = first byte and
`payload` = all remaining bytes; no bytes are buffered for later read
events, so a message split across two reads is never reassembled. -/
theorem reading_single_message_dispatch (st : MainState) (uninit : Nat × Nat)
    (opcode : Nat) (payload : List Nat) :
    (reading st uninit (opcode :: payload)).1 =
        specDispatch st uninit opcode payload ∧
      (reading st uninit (opcode :: payload)).2 = [] := by
  constructor
  · show handleMessage st uninit (opcode :: payload) = specDispatch st uninit opcode payload
    rcases opcode with _ | _ | _ | _ | _ | _ | _ | _ | _ | _ | _ | _ | _ | n <;>
      simp [handleMessage, specDispatch, readBytes_cons, readTail_cons]
  · rfl

theorem socketStep_sub {s : SockState}
    (h : s.clientConnections ⊆ s.used) (e : SockEv) :
    (socketStep s e).clientConnections ⊆ (socketStep s e).used := by
  cases e with
  | newConnection c =>
      intro x hx
      simp only [socketStep, List.mem_append, List.mem_singleton] at hx ⊢
      rcases hx with hx | hx
      · exact Or.inl (h hx)
      · exact Or.inr hx
  | disconnected c =>
      intro x hx
      simp only [socketStep] at hx ⊢
      exact h (List.mem_of_mem_filter hx)
  | readyRead c d => exact h

theorem socketStep_used_mono {s : SockState} {c : Nat}
    (h : c ∈ s.used) (e : SockEv) : c ∈ (socketStep s e).used := by
  cases e with
  | newConnection a => simp only [socketStep, List.mem_append]; exact Or.inl h
  | disconnected a => exact h
  | readyRead a d => exact h

theorem never_again {c : Nat} :
    ∀ (es : List SockEv) (s : SockState), c ∈ s.used → c ∉ s.clientConnections →
      s.clientConnections ⊆ s.used → validRun s es = true →
      (∀ d, SockEv.readyRead c d ∉ es) ∧ SockEv.disconnected c ∉ es ∧
        c ∉ (runState s es).clientConnections := by
  intro es
  induction es with
  | nil =>
      intro s _ hnc _ _
      refine ⟨fun d h => (List.not_mem_nil _ h).elim,
        fun h => (List.not_mem_nil _ h).elim, hnc⟩
  | cons e es ih =>
      intro s hu hnc hsub hv
      simp only [validRun, Bool.and_eq_true] at hv
      obtain ⟨hok, hv⟩ := hv
      have hu' : c ∈ (socketStep s e).used := socketStep_used_mono hu e
      have hnc' : c ∉ (socketStep s e).clientConnections := by
        cases e with
        | newConnection a =>
            have ha : a ∉ s.used := by
              simpa [okEv] using hok
            simp only [socketStep, List.mem_append, List.mem_singleton]
            rintro (hx | rfl)
            · exact hnc hx
            · exact ha hu
        | disconnected a =>
            simp only [socketStep]
            intro hx
            exact hnc (List.mem_of_mem_filter hx)
        | readyRead a d => exact hnc
      have hne : ∀ a, e = SockEv.readyRead a [] → True := fun _ _ => trivial
      obtain ⟨h1, h2, h3⟩ := ih (socketStep s e) hu' hnc' (socketStep_sub hsub e) hv
      refine ⟨?_, ?_, ?_⟩
      · intro d hmem
        rcases List.mem_cons.mp hmem with heq | hmem'
        · subst heq
          have : s.clientConnections.contains c = true := by simpa [okEv] using hok
          exact hnc (by simpa using this)
        · exact h1 d hmem'
      · intro hmem
        rcases List.mem_cons.mp hmem with heq | hmem'
        · subst heq
          have : s.clientConnections.contains c = true := by simpa [okEv] using hok
          exact hnc (by simpa using this)
        · exact h2 hmem'
      · simpa [runState] using h3

theorem validRun_append (xs ys : List SockEv) :
    ∀ s : SockState, validRun s (xs ++ ys) =
      (validRun s xs && validRun (runState s xs) ys) := by
  induction xs with
  | nil => intro s; simp [validRun, runState]
  | cons x xs ih =>
      intro s
      simp only [List.cons_append, validRun, runState, List.foldl_cons,
        Bool.and_assoc, List.append_eq]
      rw [show List.foldl socketStep (socketStep s x) xs = runState (socketStep s x) xs
        from rfl, ih]

theorem mem_replyTargets {c : Nat} {es : List SockEv} (h : c ∈ replyTargets es) :
    ∃ d, SockEv.readyRead c d ∈ es := by
  obtain ⟨e, he, hc⟩ := List.mem_filterMap.mp h
  cases e with
  | newConnection a => simp at hc
  | disconnected a => simp at hc
  | readyRead a d =>
      simp only [Option.some.injEq] at hc
      exact ⟨d, hc ▸ he⟩

theorem runState_sub :
    ∀ (es : List SockEv) (s : SockState), s.clientConnections ⊆ s.used →
      (runState s es).clientConnections ⊆ (runState s es).used := by
  intro es
  induction es with
  | nil => intro s h; exact h
  | cons e es ih =>
      intro s h
      simpa [runState] using ih (socketStep s e) (socketStep_sub h e)

/-- C9: After a connection's disconnect event is handled, that connection
no longer appears in `clientConnections`, it never reappears, no reply is
subsequently attempted on it (no later readyRead targets it), its
disconnect is handled exactly once (no second disconnected event for it),
and readyRead events never mutate the live set — only
`createNewConnection` and `deleteConnection` do. -/
theorem connection_lifecycle (es1 : List SockEv) (c : Nat) (es2 : List SockEv)
    (h : validRun ⟨[], []⟩ (es1 ++ SockEv.disconnected c :: es2) = true) :
    c ∉ (socketStep (runState ⟨[], []⟩ es1) (SockEv.disconnected c)).clientConnections
    ∧ c ∉ (runState (socketStep (runState ⟨[], []⟩ es1)
        (SockEv.disconnected c)) es2).clientConnections
    ∧ (∀ d, SockEv.readyRead c d ∉ es2)
    ∧ c ∉ replyTargets es2
    ∧ SockEv.disconnected c ∉ es2
    ∧ (∀ (s : SockState) (a : Nat) (d : List Nat),
        socketStep s (SockEv.readyRead a d) = s) := by
  rw [validRun_append] at h
  simp only [Bool.and_eq_true, validRun] at h
  obtain ⟨h1, hok, h2⟩ := h
  set s1 := runState ⟨[], []⟩ es1 with hs1
  have hsub1 : s1.clientConnections ⊆ s1.used := by
    apply runState_sub
    intro x hx
    exact absurd hx (List.not_mem_nil x)
  have hcmem : c ∈ s1.clientConnections := by
    simpa [okEv] using hok
  have hcused : c ∈ s1.used := hsub1 hcmem
  set s2 := socketStep s1 (SockEv.disconnected c) with hs2
  have hnc : c ∉ s2.clientConnections := by
    simp only [hs2, socketStep]
    intro hx
    have := (List.mem_filter.mp hx).2
    simp at this
  have hu2 : c ∈ s2.used := hcused
  have hsub2 : s2.clientConnections ⊆ s2.used := socketStep_sub hsub1 _
  obtain ⟨k1, k2, k3⟩ := never_again es2 s2 hu2 hnc hsub2 h2
  refine ⟨hnc, k3, k1, ?_, k2, fun s a d => rfl⟩
  intro hr
  obtain ⟨d, hd⟩ := mem_replyTargets hr
  exact k1 d hd

/-- Witness for `connection_lifecycle`: a concrete valid run in which
connection 0 is accepted, connection 1 is accepted, connection 0
disconnects, and one message then arrives on connection 1. -/
theorem connection_lifecycle_witness :
    validRun ⟨[], []⟩ ([SockEv.newConnection 0, SockEv.newConnection 1] ++
        SockEv.disconnected 0 :: [SockEv.readyRead 1 [12]]) = true
    ∧ (0 ∉ (socketStep (runState ⟨[], []⟩
          [SockEv.newConnection 0, SockEv.newConnection 1])
          (SockEv.disconnected 0)).clientConnections
      ∧ 0 ∉ (runState (socketStep (runState ⟨[], []⟩
          [SockEv.newConnection 0, SockEv.newConnection 1])
          (SockEv.disconnected 0)) [SockEv.readyRead 1 [12]]).clientConnections
      ∧ (∀ d, SockEv.readyRead 0 d ∉ [SockEv.readyRead 1 [12]])
      ∧ 0 ∉ replyTargets [SockEv.readyRead 1 [12]]
      ∧ SockEv.disconnected 0 ∉ [SockEv.readyRead 1 [12]]
      ∧ (∀ (s : SockState) (a : Nat) (d : List Nat),
          socketStep s (SockEv.readyRead a d) = s)) :=
  ⟨by decide,
    connection_lifecycle [SockEv.newConnection 0, SockEv.newConnection 1] 0
      [SockEv.readyRead 1 [12]] (by decide)⟩

theorem readBytes_some {data : List Nat} {off n : Nat} (h : off + n ≤ data.length) :
    readBytes data off n = some ((data.drop off).take n) := by
  simp [readBytes, h]

theorem readTail_some {data : List Nat} {off : Nat} (h : off ≤ data.length) :
    readTail data off = some (data.drop off) := by
  simp [readTail, h]

/-- C4: For an opcode byte of 0 or any value greater than 12 and any
payload, `handleMessage` writes exactly the single zero byte, invokes no
command-surface operation, leaves the main-window state unchanged, and the
readyRead event leaves the live-connection set untouched (the connection
is not closed). -/
theorem handleMessage_unrecognized_zero (st : MainState) (uninit : Nat × Nat)
    (op : Nat) (payload : List Nat) (hb : op < 256) (h : op = 0 ∨ 12 < op) :
    handleMessage st uninit (op :: payload) = some ⟨st, [0], []⟩ ∧
      (∀ (s : SockState) (c : Nat),
        socketStep s (SockEv.readyRead c (op :: payload)) = s) := by
  refine ⟨?_, fun s c => rfl⟩
  rcases op with _ | _ | _ | _ | _ | _ | _ | _ | _ | _ | _ | _ | _ | n <;>
    first
      | rfl
      | (rcases h with h | h <;> omega)

/-- Witness for `handleMessage_unrecognized_zero` at opcode 13 with a
nonempty payload. -/
theorem handleMessage_unrecognized_zero_witness :
    handleMessage mockInitialState (0, 0) (13 :: [1, 2, 3]) =
        some ⟨mockInitialState, [0], []⟩ ∧
      (∀ (s : SockState) (c : Nat),
        socketStep s (SockEv.readyRead c (13 :: [1, 2, 3])) = s) :=
  handleMessage_unrecognized_zero mockInitialState (0, 0) 13 [1, 2, 3]
    (by decide) (by decide)

/-- C1 (failing input): a request whose payload is shorter than the
opcode's fixed fields is not rejected with the zero-byte reply — the
handler reads past the end of the buffer (`none` marks the out-of-bounds
read).  Shown for opcode 6 with an empty payload and opcode 5 with an
empty payload. -/
theorem handleMessage_short_payload_oob :
    handleMessage mockInitialState (0, 0) [6] = none ∧
      handleMessage mockInitialState (0, 0) [5] = none ∧
      handleMessage mockInitialState (0, 0) [6] ≠
        some ⟨mockInitialState, [0], []⟩ ∧
      handleMessage mockInitialState (0, 0) [5] ≠
        some ⟨mockInitialState, [0], []⟩ := by
  decide

/-- C3: For every opcode in {1,2,3,4,5,7,9,11,12} with a payload at least
as long as the opcode's fixed fields, the reply is exactly one byte equal
to the opcode (the acknowledgement echo) — never empty and never the zero
byte. -/
theorem handleMessage_ack_echo (st : MainState) (uninit : Nat × Nat) (op : Nat)
    (payload : List Nat) (hop : op ∈ [1, 2, 3, 4, 5, 7, 9, 11, 12])
    (hlen : ackMinLen op ≤ payload.length) :
    ∃ r : HandleResult, handleMessage st uninit (op :: payload) = some r ∧
      r.reply = [op] ∧ r.reply ≠ [] ∧ r.reply ≠ [0] := by
  fin_cases hop
  · -- opcode 1 (load trial)
    simp only [handleMessage, readTail_cons, readTail_some (Nat.zero_le _),
      Option.some_bind]
    exact ⟨_, rfl, rfl, by simp, by simp⟩
  · -- opcode 2 (load tracking data)
    have h4 : (4 : Nat) ≤ payload.length := hlen
    simp only [handleMessage, readBytes_cons, readTail_cons,
      readBytes_some (show 0 + 4 ≤ payload.length by omega),
      readTail_some h4, Option.some_bind]
    exact ⟨_, rfl, rfl, by simp, by simp⟩
  · -- opcode 3 (save tracking data)
    have h4 : (4 : Nat) ≤ payload.length := hlen
    simp only [handleMessage, readBytes_cons, readTail_cons,
      readBytes_some (show 0 + 4 ≤ payload.length by omega),
      readTail_some h4, Option.some_bind]
    exact ⟨_, rfl, rfl, by simp, by simp⟩
  · -- opcode 4 (load filter settings)
    have h4 : (4 : Nat) ≤ payload.length := hlen
    simp only [handleMessage, readBytes_cons, readTail_cons,
      readBytes_some (show 0 + 4 ≤ payload.length by omega),
      readTail_some h4, Option.some_bind]
    exact ⟨_, rfl, rfl, by simp, by simp⟩
  · -- opcode 5 (set current frame)
    have h4 : (4 : Nat) ≤ payload.length := hlen
    simp only [handleMessage, readBytes_cons,
      readBytes_some (show 0 + 4 ≤ payload.length by omega), Option.some_bind]
    exact ⟨_, rfl, rfl, by simp, by simp⟩
  · -- opcode 7 (set Pose)
    have h56 : (56 : Nat) ≤ payload.length := hlen
    simp only [handleMessage, readBytes_cons,
      readBytes_some (show 0 + 4 ≤ payload.length by omega),
      readBytes_some (show 4 + 4 ≤ payload.length by omega),
      readBytes_some (show 8 + 48 ≤ payload.length by omega), Option.some_bind]
    exact ⟨_, rfl, rfl, by simp, by simp⟩
  · -- opcode 9 (set Background)
    have h8 : (8 : Nat) ≤ payload.length := hlen
    simp only [handleMessage, readBytes_cons,
      readBytes_some (show 0 + 8 ≤ payload.length by omega), Option.some_bind]
    exact ⟨_, rfl, rfl, by simp, by simp⟩
  · -- opcode 11 (optimize)
    have h36 : (36 : Nat) ≤ payload.length := hlen
    simp only [handleMessage, readBytes_cons,
      readBytes_some (show 0 + 4 ≤ payload.length by omega),
      readBytes_some (show 4 + 4 ≤ payload.length by omega),
      readBytes_some (show 8 + 4 ≤ payload.length by omega),
      readBytes_some (show 12 + 4 ≤ payload.length by omega),
      readBytes_some (show 16 + 8 ≤ payload.length by omega),
      readBytes_some (show 24 + 8 ≤ payload.length by omega),
      readBytes_some (show 32 + 4 ≤ payload.length by omega), Option.some_bind]
    exact ⟨_, rfl, rfl, by simp, by simp⟩
  · -- opcode 12 (save full drr image)
    exact ⟨⟨st, [12], [Call.saveFullDRR]⟩, rfl, rfl, by simp, by simp⟩

/-- Witness for `handleMessage_ack_echo` at opcode 5 with a 4-byte payload. -/
theorem handleMessage_ack_echo_witness :
    ∃ r : HandleResult,
      handleMessage mockInitialState (0, 0) (5 :: [7, 0, 0, 0]) = some r ∧
        r.reply = [5] ∧ r.reply ≠ [] ∧ r.reply ≠ [0] :=
  handleMessage_ack_echo mockInitialState (0, 0) 5 [7, 0, 0, 0]
    (by decide) (by decide)

/-- C6: the request `[0x06][00 00 00 00][00 00 00 00]` against the mock's
initial state is answered by the byte 6 followed by the 48 little-endian
bytes of the doubles `0.1, 1.2, 2.3, 3.4, 4.5, 6.7`, in order. -/
theorem getPose_request_initial_reply (uninit : Nat × Nat) :
    handleMessage mockInitialState uninit [6, 0, 0, 0, 0, 0, 0, 0, 0] =
      some ⟨mockInitialState,
        6 :: (d0_1 ++ d1_2 ++ d2_3 ++ d3_4 ++ d4_5 ++ d6_7),
        [Call.getPose 0 0]⟩ := by
  rfl

/-- C5: an opcode-7 request (set pose, any volume/frame, 48 pose bytes)
followed by an opcode-6 request (get pose, same volume/frame) replies with
the byte 6 followed by exactly the 48 pose bytes that were set —
bit-for-bit the same 6 doubles. -/
theorem setPose_getPose_roundtrip_wire (st : MainState) (u1 u2 : Nat × Nat)
    (vb fb pb : List Nat) (hv : vb.length = 4) (hf : fb.length = 4)
    (hp : pb.length = 48) :
    ∃ r1 r2 : HandleResult,
      handleMessage st u1 (7 :: (vb ++ fb ++ pb)) = some r1 ∧
        handleMessage r1.state u2 (6 :: (vb ++ fb)) = some r2 ∧
        r2.reply = 6 :: pb := by
  have hvfb : (vb ++ fb).length = 8 := by simp [hv, hf]
  have hlen : (vb ++ fb ++ pb).length = 56 := by simp [hv, hf, hp]
  have e1 : ((vb ++ fb ++ pb).drop 0).take 4 = vb := by
    rw [List.drop_zero, List.append_assoc, List.take_left' hv]
  have e2 : ((vb ++ fb ++ pb).drop 4).take 4 = fb := by
    rw [List.append_assoc, List.drop_left' hv, List.take_left' hf]
  have e3 : ((vb ++ fb ++ pb).drop 8).take 48 = pb := by
    rw [List.drop_left' hvfb, ← hp, List.take_length]
  have f1 : ((vb ++ fb).drop 0).take 4 = vb := by
    rw [List.drop_zero, List.take_left' hv]
  have f2 : ((vb ++ fb).drop 4).take 4 = fb := by
    rw [List.drop_left' hv, ← hf, List.take_length]
  refine ⟨⟨⟨st.Frame, pb⟩, [7], [Call.setPose pb (toU32 (i32 vb)) (toU32 (i32 fb))]⟩,
    ⟨⟨st.Frame, pb⟩, 6 :: List.take 48 pb,
      [Call.getPose (toU32 (i32 vb)) (toU32 (i32 fb))]⟩, ?_, ?_, ?_⟩
  · simp only [handleMessage, readBytes_cons,
      readBytes_some (show 0 + 4 ≤ (vb ++ fb ++ pb).length by omega),
      readBytes_some (show 4 + 4 ≤ (vb ++ fb ++ pb).length by omega),
      readBytes_some (show 8 + 48 ≤ (vb ++ fb ++ pb).length by omega),
      e1, e2, e3]
    rfl
  · simp only [handleMessage, readBytes_cons,
      readBytes_some (show 0 + 4 ≤ (vb ++ fb).length by omega),
      readBytes_some (show 4 + 4 ≤ (vb ++ fb).length by omega),
      f1, f2]
    simp [AutoscoperMockMainWindow.getPose, hp]
  · show 6 :: List.take 48 pb = 6 :: pb
    rw [← hp, List.take_length]

/-- Witness for `setPose_getPose_roundtrip_wire` with volume 1, frame 2 and
48 pose bytes all equal to 9. -/
theorem setPose_getPose_roundtrip_wire_witness :
    ([1, 0, 0, 0] : List Nat).length = 4 ∧ ([2, 0, 0, 0] : List Nat).length = 4 ∧
      (List.replicate 48 9 : List Nat).length = 48 ∧
      ∃ r1 r2 : HandleResult,
        handleMessage mockInitialState (0, 0)
            (7 :: ([1, 0, 0, 0] ++ [2, 0, 0, 0] ++ List.replicate 48 9)) = some r1 ∧
          handleMessage r1.state (0, 0) (6 :: ([1, 0, 0, 0] ++ [2, 0, 0, 0])) = some r2 ∧
          r2.reply = 6 :: List.replicate 48 9 :=
  ⟨by decide, by decide, by simp,
    setPose_getPose_roundtrip_wire mockInitialState (0, 0) (0, 0) _ _ _
      (by decide) (by decide) (by simp)⟩

open AutoscoperMockMainWindow in
/-- C7: an opcode-8 request (int32 volume, then at least 48 payload bytes
for the 6 pose doubles) is answered by the echo byte 8, then a single
length byte equal to the number of correlation values `getNCC` returns
(mod 256 — the count is one byte, not an int32), then the bytes of those
doubles in order (8 per value). -/
theorem getNCC_reply_count_byte (st : MainState) (u : Nat × Nat)
    (vb rest : List Nat) (hv : vb.length = 4) (h48 : 48 ≤ rest.length) :
    ∃ r : HandleResult,
      handleMessage st u (8 :: (vb ++ rest)) = some r ∧ r.state = st ∧
        r.reply = 8 :: ((getNCC (toU32 (i32 vb)) (rest.take 48)).length % 256)
            :: (getNCC (toU32 (i32 vb)) (rest.take 48)).flatten ∧
        (getNCC (toU32 (i32 vb)) (rest.take 48)).flatten.length =
          8 * (getNCC (toU32 (i32 vb)) (rest.take 48)).length := by
  have e1 : ((vb ++ rest).drop 0).take 4 = vb := by
    rw [List.drop_zero, List.take_left' hv]
  have e2 : ((vb ++ rest).drop 4).take 48 = rest.take 48 := by
    rw [List.drop_left' hv]
  refine ⟨⟨st, 8 :: ((getNCC (toU32 (i32 vb)) (rest.take 48)).length % 256)
      :: (getNCC (toU32 (i32 vb)) (rest.take 48)).flatten,
      [Call.getNCC (toU32 (i32 vb)) (rest.take 48)]⟩, ?_, rfl, rfl,
    by simp [getNCC, d0_5]⟩
  simp only [handleMessage, readBytes_cons,
    readBytes_some (show 0 + 4 ≤ (vb ++ rest).length by
      rw [List.length_append, hv]; omega),
    readBytes_some (show 4 + 48 ≤ (vb ++ rest).length by
      rw [List.length_append, hv]; omega),
    e1, e2]
  rfl

open AutoscoperMockMainWindow in
/-- Witness for `getNCC_reply_count_byte` at volume 0 with 48 zero pose
bytes. -/
theorem getNCC_reply_count_byte_witness :
    ∃ r : HandleResult,
      handleMessage mockInitialState (0, 0)
          (8 :: ([0, 0, 0, 0] ++ List.replicate 48 0)) = some r ∧
        r.state = mockInitialState ∧
        r.reply = 8 :: ((getNCC (toU32 (i32 [0, 0, 0, 0]))
              ((List.replicate 48 0).take 48)).length % 256)
            :: (getNCC (toU32 (i32 [0, 0, 0, 0]))
              ((List.replicate 48 0).take 48)).flatten ∧
        (getNCC (toU32 (i32 [0, 0, 0, 0]))
            ((List.replicate 48 0).take 48)).flatten.length =
          8 * (getNCC (toU32 (i32 [0, 0, 0, 0]))
            ((List.replicate 48 0).take 48)).length :=
  getNCC_reply_count_byte mockInitialState (0, 0) [0, 0, 0, 0]
    (List.replicate 48 0) (by decide) (by simp)

open AutoscoperMockMainWindow in
/-- C8: the opcode-10 request with volume 0, camera 0 and 6 zero doubles,
when the surface produces a width-4 by height-4 image, is answered by the
byte 10, the int32 4 (width), the int32 4 (height), and the 16 pixel bytes
of `getImageData`'s quadrant pattern. -/
theorem getImage_reply_4x4 (st : MainState) :
    handleMessage st (4, 4)
        (10 :: ([0, 0, 0, 0] ++ [0, 0, 0, 0] ++ List.replicate 48 0)) =
      some ⟨st, 10 :: (le32 4 ++ le32 4 ++ getImageData 0 0 (List.replicate 48 0) 4 4),
        [Call.getImageData 0 0 (List.replicate 48 0) 4 4]⟩ ∧
      getImageData 0 0 (List.replicate 48 0) 4 4 =
        [255, 255, 255, 0, 255, 255, 255, 0, 255, 255, 255, 0, 0, 0, 0, 255] ∧
      le32 4 = [4, 0, 0, 0] :=
  ⟨rfl, by decide, by decide⟩

open AutoscoperMockMainWindow in
/-- C10: the stored pose is one global value — `getPose` returns the same
bytes for every (volume, frame) pair, `setPose` on any (volume, frame)
overwrites the pose observed by every later `getPose` on any pair, and no
command-surface operation other than `setPose` changes the stored pose. -/
theorem pose_global_across_volumes_frames :
    (∀ (s : MainState) (v1 f1 v2 f2 : Nat), getPose s v1 f1 = getPose s v2 f2) ∧
      (∀ (s : MainState) (p : List Nat) (v f v' f' : Nat),
        getPose (setPose s p v f) v' f' = p) ∧
      (∀ (s : MainState) (c : Call), (∀ p v f, c ≠ Call.setPose p v f) →
        (applyCall s c).Pose = s.Pose) := by
  refine ⟨fun s v1 f1 v2 f2 => rfl, fun s p v f v' f' => rfl, ?_⟩
  intro s c hc
  cases c <;> first
    | rfl
    | exact absurd rfl (hc _ _ _)

/-- Witness for `pose_global_across_volumes_frames`: `setFrame 3` is not a
`setPose` call and leaves the stored pose unchanged. -/
theorem pose_global_across_volumes_frames_witness :
    (∀ p v f, Call.setFrame 3 ≠ Call.setPose p v f) ∧
      (applyCall mockInitialState (Call.setFrame 3)).Pose = mockInitialState.Pose :=
  ⟨fun p v f h => Call.noConfusion h,
    pose_global_across_volumes_frames.2.2 mockInitialState (Call.setFrame 3)
      (fun p v f h => Call.noConfusion h)⟩
